import Mathlib

/-!
Shallow embedding of the authorization subsystems of openSUSE/systemd-mcp:
the remote OAuth2/JWT verifier (package remoteauth), the authorization
arbiter (package authkeeper), and the unit state-change dispatch.

Go machine state is modelled by explicit structures; Go functions returning
(value, error) pairs are modelled as pairs with an Option error component;
external collaborators (the jwt library, HTTP, the D-Bus broker) are
modelled abstractly by the observable outcomes the embedded code branches on.
-/

namespace SystemdMcp

/-! ## Package remoteauth: constants (systemd-mcp sources, remoteauth part) -/

/-- The fixed audience literal, variable Audience in package remoteauth. -/
def Audience : String := "systemd-mcp-server"

/-- Variable ScopesSupported in package remoteauth. -/
def ScopesSupported : List String := ["mcp:read", "mcp:write"]

/-- Function systemdScopes in package main (systemd-mcp.go). -/
def systemdScopes : List String := ["mcp:read", "mcp:read"]

/-! ## Errors -/

/-- Errors surfaced by the authorization checks. scopeErr models the
fmt.Errorf message naming the missing scope and the current scope slice;
external models an opaque error from the D-Bus broker; nilDeref marks a
branch where the Go code would dereference a nil backend pointer. -/
inductive AuthErr where
  | scopeErr (missing : String) (scopes : List String)
  | external (msg : String)
  | nilDeref
deriving DecidableEq

/-! ## Oauth2Auth (package remoteauth) -/

/-- Split of a character list around each space character; the helper
underlying stringsSplitSpace. -/
def splitSpaceChars : List Char → List (List Char)
  | [] => [[]]
  | c :: rest =>
    let r := splitSpaceChars rest
    if c = ' ' then [] :: r
    else
      match r with
      | [] => [[c]]
      | w :: ws => (c :: w) :: ws

/-- The Go standard library call strings.Split with the single-space
separator, as VerifyJWT uses it: splits around each instance of the
separator, so the empty string yields a single empty element and adjacent
spaces yield empty elements. -/
def stringsSplitSpace (s : String) : List String :=
  (splitSpaceChars s.toList).map (fun w => String.mk w)

/-- Outcome of jwt.MapClaims.GetExpirationTime: the exp claim as an epoch
value, or an extraction error. -/
inductive ExpClaim where
  | ok (epoch : Int)
  | err
deriving DecidableEq

/-- The claim set the jwt parse fills in, restricted to the fields the
embedded code reads: the GetExpirationTime outcome and the scope claim.
scope is some s exactly when the claim is present and the Go type
assertion to string succeeds; absent or non-string claims are none. -/
structure MapClaims where
  getExpirationTime : ExpClaim
  scope : Option String
deriving DecidableEq

/-- Outcome of jwt.ParseWithClaims as observed by VerifyJWT: either a
non-nil error, or a token carrying its Valid flag and the parsed claims. -/
inductive ParseResult where
  | err
  | ok (valid : Bool) (claims : MapClaims)
deriving DecidableEq

/-- The TokenInfo value VerifyJWT returns on success. -/
structure TokenInfo where
  Scopes : List String
  Expiration : Int
deriving DecidableEq

/-- The error cases of VerifyJWT. invalidTokenParse is the wrapped
auth.ErrInvalidToken returned when jwt.ParseWithClaims fails;
invalidTokenExp when GetExpirationTime fails; scopeTypeAssert when the
scope claim type assertion fails; invalidToken the bare
auth.ErrInvalidToken returned when the token is not Valid. -/
inductive VerifyError where
  | invalidTokenParse
  | invalidTokenExp
  | scopeTypeAssert
  | invalidToken
deriving DecidableEq

/-- Result of VerifyJWT: the TokenInfo, or an error (nil TokenInfo). -/
inductive VerifyResult where
  | ok (info : TokenInfo)
  | error (e : VerifyError)
deriving DecidableEq

/-- Mutable state of remoteauth.Oauth2Auth that outlives a call: the JWKS
URI and the scopes slice written by the last verification. The claims
field is only written and read within a single VerifyJWT call, so it is
folded into ParseResult. -/
structure Oauth2Auth where
  JwksUri : String
  scopes : List String
deriving DecidableEq

/-- Oauth2Auth.VerifyJWT from package remoteauth, as a function of the
jwt.ParseWithClaims outcome: on parse error it wraps ErrInvalidToken; on a
Valid token it extracts the expiration, type-asserts the scope claim,
splits it on single spaces, stores the split as the verifier scopes and
returns it with the expiration; on a non-Valid token it clears the stored
scopes and returns ErrInvalidToken. -/
def Oauth2Auth.VerifyJWT (a : Oauth2Auth) (p : ParseResult) :
    Oauth2Auth × VerifyResult :=
  match p with
  | ParseResult.err => (a, VerifyResult.error VerifyError.invalidTokenParse)
  | ParseResult.ok valid claims =>
    if valid then
      match claims.getExpirationTime with
      | ExpClaim.err => (a, VerifyResult.error VerifyError.invalidTokenExp)
      | ExpClaim.ok expireTime =>
        match claims.scope with
        | none => (a, VerifyResult.error VerifyError.scopeTypeAssert)
        | some scopes =>
          ({ a with scopes := stringsSplitSpace scopes },
           VerifyResult.ok ⟨stringsSplitSpace scopes, expireTime⟩)
    else
      ({ a with scopes := [] }, VerifyResult.error VerifyError.invalidToken)

/-- Oauth2Auth.IsWriteAuthorized: true iff the stored scopes contain
mcp:write, else false with an error naming the missing scope and the
current scopes. -/
def Oauth2Auth.IsWriteAuthorized (a : Oauth2Auth) : Bool × Option AuthErr :=
  if a.scopes.contains "mcp:write" then (true, none)
  else (false, some (AuthErr.scopeErr "mcp:write" a.scopes))

/-- Oauth2Auth.IsReadAuthorized: true iff the stored scopes contain
mcp:read, else false with an error naming the missing scope and the
current scopes. -/
def Oauth2Auth.IsReadAuthorized (a : Oauth2Auth) : Bool × Option AuthErr :=
  if a.scopes.contains "mcp:read" then (true, none)
  else (false, some (AuthErr.scopeErr "mcp:read" a.scopes))

/-! ## The jwt parse step, modelled abstractly -/

/-- Abstract view of a presented bearer token: whether the token string
parses, its audience and algorithm, whether the signing key resolves,
whether the signature verifies, and its claims. -/
structure JwtToken where
  parses : Bool
  audience : String
  alg : String
  keyResolvable : Bool
  signatureValid : Bool
  claims : MapClaims
deriving DecidableEq

/-- Modelled from the spec: the external jwt.ParseWithClaims call with the
WithAudience and WithValidMethods options, which fails when the token
string does not parse, the audience claim differs from the expected
audience, the algorithm is not among the valid methods, the signing key
cannot be resolved, or the signature is invalid; otherwise it yields a
Valid token with the parsed claims. -/
def parseWithClaims (tok : JwtToken) (aud : String) (validMethods : List String) :
    ParseResult :=
  if tok.parses = false then ParseResult.err
  else if tok.audience ≠ aud then ParseResult.err
  else if tok.alg ∉ validMethods then ParseResult.err
  else if tok.keyResolvable = false then ParseResult.err
  else if tok.signatureValid = false then ParseResult.err
  else ParseResult.ok true tok.claims

/-- Oauth2Auth.VerifyJWT applied to a presented token: the source calls
jwt.ParseWithClaims with jwt.WithAudience(Audience) and
jwt.WithValidMethods containing only RS256. -/
def Oauth2Auth.VerifyJWTWith (a : Oauth2Auth) (tok : JwtToken) :
    Oauth2Auth × VerifyResult :=
  a.VerifyJWT (parseWithClaims tok Audience ["RS256"])

/-! ## GetJwksURI (package remoteauth) -/

/-- The body of the openid-configuration response as the json decode sees
it: malformed JSON, or well-formed JSON whose jwks_uri field holds the
given string. -/
inductive JsonBody where
  | malformed
  | openidConfig (jwksUri : String)
deriving DecidableEq

/-- An HTTP response: its status code, the Go resp.Status string (such as
"404 Not Found"), and its body. -/
structure HttpResponse where
  statusCode : Nat
  status : String
  body : JsonBody
deriving DecidableEq

/-- Result of GetJwksURI: the jwks_uri, or an error message. -/
inductive JwksResult where
  | ok (uri : String)
  | error (msg : String)
deriving DecidableEq

/-- GetJwksURI from package remoteauth, as a function of the HTTP world: a
map from URL to the response http.Get yields there (none models a
transport error). It fetches issuer plus the well-known path; a non-200
status is an error reporting resp.Status; a 200 body that fails to decode
is an error; otherwise the jwks_uri field is returned. -/
def GetJwksURI (issuer : String) (world : String → Option HttpResponse) :
    JwksResult :=
  match world (issuer ++ "/.well-known/openid-configuration") with
  | none => JwksResult.error "http get error"
  | some resp =>
    if resp.statusCode ≠ 200 then
      JwksResult.error ("failed to get openid-configuration: " ++ resp.status)
    else
      match resp.body with
      | JsonBody.malformed => JwksResult.error "json decode error"
      | JsonBody.openidConfig jwksURI => JwksResult.ok jwksURI

/-! ## Package authkeeper -/

/-- The D-Bus/polkit backend (package dbus, external collaborator),
modelled by the observable results of the three calls the arbiter
delegates: IsReadAuthorized, IsWriteAuthorized (called with the empty
permission string), and Deauthorize. -/
structure DbusAuth where
  readResult : Bool × Option AuthErr
  writeResult : Bool × Option AuthErr
  deauthorizeResult : Option String
deriving DecidableEq

/-- AuthMode from package authkeeper. -/
inductive AuthMode where
  | noauth
  | oauth2
  | polkit
deriving DecidableEq

/-- AuthKeeper from package authkeeper: optional references to the two
backends, the timeout, and the static allow flags. -/
structure AuthKeeper where
  Dbus : Option DbusAuth
  Oauth2 : Option Oauth2Auth
  Timeout : Nat
  ReadAllowed : Bool
  WriteAllowed : Bool
deriving DecidableEq

/-- AuthKeeper.Mode: both backends set falls back to noauth (with a
warning in the source); otherwise Dbus set means polkit, Oauth2 set means
oauth2, neither means noauth. -/
def AuthKeeper.Mode (a : AuthKeeper) : AuthMode :=
  if a.Dbus.isSome ∧ a.Oauth2.isSome then AuthMode.noauth
  else if a.Dbus.isSome then AuthMode.polkit
  else if a.Oauth2.isSome then AuthMode.oauth2
  else AuthMode.noauth

/-- NewNoAuth: a zero AuthKeeper with both allow flags set. -/
def NewNoAuth : AuthKeeper :=
  { Dbus := none, Oauth2 := none, Timeout := 0,
    ReadAllowed := true, WriteAllowed := true }

/-- AuthKeeper.IsReadAuthorized: switch on Mode, delegating to the active
backend; the default branch returns the static ReadAllowed flag with no
error. The nilDeref branches mark the nil pointer dereference the Go code
would perform; Mode makes them unreachable. -/
def AuthKeeper.IsReadAuthorized (a : AuthKeeper) : Bool × Option AuthErr :=
  match a.Mode with
  | AuthMode.oauth2 =>
    match a.Oauth2 with
    | some o => o.IsReadAuthorized
    | none => (false, some AuthErr.nilDeref)
  | AuthMode.polkit =>
    match a.Dbus with
    | some d => d.readResult
    | none => (false, some AuthErr.nilDeref)
  | AuthMode.noauth => (a.ReadAllowed, none)

/-- AuthKeeper.IsWriteAuthorized: switch on Mode, delegating to the active
backend (the polkit delegation passes the empty string, ignoring the
systemdPermission argument); the default branch returns the static
WriteAllowed flag with no error. -/
def AuthKeeper.IsWriteAuthorized (a : AuthKeeper) (systemdPermission : String) :
    Bool × Option AuthErr :=
  match a.Mode with
  | AuthMode.oauth2 =>
    match a.Oauth2 with
    | some o => o.IsWriteAuthorized
    | none => (false, some AuthErr.nilDeref)
  | AuthMode.polkit =>
    match a.Dbus with
    | some d => d.writeResult
    | none => (false, some AuthErr.nilDeref)
  | AuthMode.noauth => (a.WriteAllowed, none)

/-- AuthKeeper.Deauthorize: returns nil when the Dbus reference is nil,
otherwise delegates to the D-Bus backend Deauthorize. Note the guard is
on the Dbus reference, not on Mode. -/
def AuthKeeper.Deauthorize (a : AuthKeeper) : Option String :=
  match a.Dbus with
  | none => none
  | some d => d.deauthorizeResult

/-! ## Unit state-change dispatch (package internal/pkg/systemd) -/

/-- The service-manager primitives the dispatch can invoke. -/
inductive Primitive where
  | startUnit
  | stopUnit
  | restartUnit
  | reloadOrRestartUnit
  | enableUnitFiles
  | disableUnitFiles
deriving DecidableEq

/-- Errors of the state-change dispatch. -/
inductive ChangeError where
  | unsupportedAction (action : String)
deriving DecidableEq

/-- The fixed action set of ChangeUnitState. -/
def supportedActions : List String :=
  ["start", "stop", "restart", "restart_force", "reload", "enable", "disable"]

/-- Modelled from the spec: the action dispatch of ChangeUnitState, whose
source is not in the repository snapshot (only its test is). Per the
dispatch table, each action in the fixed set invokes exactly one
service-manager primitive (restart and restart_force both invoke restart,
reload invokes reload-or-restart), and any other action is rejected with
an unsupported-action error before any backend call; the write
authorization gate is modelled separately by AuthKeeper. Returns the list
of backend primitives invoked and the error, if any. -/
def ChangeUnitState (name action : String) :
    List Primitive × Option ChangeError :=
  if action = "start" then ([Primitive.startUnit], none)
  else if action = "stop" then ([Primitive.stopUnit], none)
  else if action = "restart" then ([Primitive.restartUnit], none)
  else if action = "restart_force" then ([Primitive.restartUnit], none)
  else if action = "reload" then ([Primitive.reloadOrRestartUnit], none)
  else if action = "enable" then ([Primitive.enableUnitFiles], none)
  else if action = "disable" then ([Primitive.disableUnitFiles], none)
  else ([], some (ChangeError.unsupportedAction action))

/-! ## Claims -/

/-- C1: AuthKeeper.Mode is a pure function of which backend references are
non-nil: Dbus set and Oauth2 nil gives polkit, Oauth2 set and Dbus nil
gives oauth2, and both nil or both set give noauth. -/
theorem mode_resolution (a : AuthKeeper) :
    a.Mode = match a.Dbus, a.Oauth2 with
      | some _, none => AuthMode.polkit
      | none, some _ => AuthMode.oauth2
      | none, none => AuthMode.noauth
      | some _, some _ => AuthMode.noauth := by
  cases h1 : a.Dbus <;> cases h2 : a.Oauth2 <;>
    simp [AuthKeeper.Mode, h1, h2]

/-- C3: whenever Mode resolves to noauth, AuthKeeper.IsReadAuthorized
returns the static ReadAllowed flag and AuthKeeper.IsWriteAuthorized the
static WriteAllowed flag, both with no error, for every flag state. -/
theorem noauth_returns_static_flags (a : AuthKeeper) (p : String)
    (h : a.Mode = AuthMode.noauth) :
    a.IsReadAuthorized = (a.ReadAllowed, none) ∧
    a.IsWriteAuthorized p = (a.WriteAllowed, none) := by
  constructor
  · simp [AuthKeeper.IsReadAuthorized, h]
  · simp [AuthKeeper.IsWriteAuthorized, h]

/-- C3 witness: the NewNoAuth state resolves to noauth and both checks
return the allow flags, which NewNoAuth sets to true, with no error. -/
theorem noauth_returns_static_flags_witness :
    NewNoAuth.IsReadAuthorized = (true, none) ∧
    NewNoAuth.IsWriteAuthorized "" = (true, none) := by
  have h := noauth_returns_static_flags NewNoAuth "" (by decide)
  simpa [NewNoAuth] using h

/-- C2: in remote mode the scope checks are exact: IsReadAuthorized
returns true with no error iff the stored scopes contain mcp:read, and on
denial returns false with an error naming the missing scope and the full
scope set; symmetrically for IsWriteAuthorized with mcp:write. A scope
string of mcp:read (after the space split performed by verification)
authorizes read and denies write, mcp:read mcp:write authorizes both, and
the empty scope string authorizes neither. -/
theorem oauth2_scope_checks (a : Oauth2Auth) :
    (a.IsReadAuthorized = (true, none) ↔ "mcp:read" ∈ a.scopes) ∧
    (a.IsWriteAuthorized = (true, none) ↔ "mcp:write" ∈ a.scopes) ∧
    ("mcp:read" ∉ a.scopes →
      a.IsReadAuthorized = (false, some (AuthErr.scopeErr "mcp:read" a.scopes))) ∧
    ("mcp:write" ∉ a.scopes →
      a.IsWriteAuthorized = (false, some (AuthErr.scopeErr "mcp:write" a.scopes))) ∧
    (a.scopes = stringsSplitSpace "mcp:read" →
      a.IsReadAuthorized = (true, none) ∧ a.IsWriteAuthorized.1 = false) ∧
    (a.scopes = stringsSplitSpace "mcp:read mcp:write" →
      a.IsReadAuthorized = (true, none) ∧ a.IsWriteAuthorized = (true, none)) ∧
    (a.scopes = stringsSplitSpace "" →
      a.IsReadAuthorized.1 = false ∧ a.IsWriteAuthorized.1 = false) := by
  refine ⟨?_, ?_, ?_, ?_, ?_, ?_, ?_⟩
  · constructor
    · intro h
      by_contra hmem
      simp [Oauth2Auth.IsReadAuthorized, hmem] at h
    · intro h
      simp [Oauth2Auth.IsReadAuthorized, h]
  · constructor
    · intro h
      by_contra hmem
      simp [Oauth2Auth.IsWriteAuthorized, hmem] at h
    · intro h
      simp [Oauth2Auth.IsWriteAuthorized, h]
  · intro h
    simp [Oauth2Auth.IsReadAuthorized, h]
  · intro h
    simp [Oauth2Auth.IsWriteAuthorized, h]
  · intro h
    constructor
    · simp [Oauth2Auth.IsReadAuthorized, h]
      decide
    · simp [Oauth2Auth.IsWriteAuthorized, h]
      decide
  · intro h
    constructor
    · simp [Oauth2Auth.IsReadAuthorized, h]
      decide
    · simp [Oauth2Auth.IsWriteAuthorized, h]
      decide
  · intro h
    constructor
    · simp [Oauth2Auth.IsReadAuthorized, h]
      decide
    · simp [Oauth2Auth.IsWriteAuthorized, h]
      decide

/-- C2 witness: concrete evaluations of the scope checks via the theorem:
the read-only scope set authorizes read and denies write with the error
naming mcp:write and the scope set, and the empty scope string denies
both. -/
theorem oauth2_scope_checks_witness :
    (Oauth2Auth.mk "" ["mcp:read"]).IsReadAuthorized = (true, none) ∧
    (Oauth2Auth.mk "" ["mcp:read"]).IsWriteAuthorized =
      (false, some (AuthErr.scopeErr "mcp:write" ["mcp:read"])) ∧
    (Oauth2Auth.mk "" (stringsSplitSpace "")).IsReadAuthorized.1 = false := by
  refine ⟨?_, ?_, ?_⟩
  · exact (oauth2_scope_checks (Oauth2Auth.mk "" ["mcp:read"])).1.mpr (by decide)
  · exact (oauth2_scope_checks (Oauth2Auth.mk "" ["mcp:read"])).2.2.2.1 (by decide)
  · exact ((oauth2_scope_checks
      (Oauth2Auth.mk "" (stringsSplitSpace ""))).2.2.2.2.2.2 rfl).1

/-- C4 counterexample: an AuthKeeper with both backends configured
resolves to noauth, not polkit, yet Deauthorize is not a no-op there: it
delegates to the D-Bus backend (the guard in the source is on the Dbus
reference being nil, not on the active mode). -/
def bothBackendsKeeper : AuthKeeper :=
  { Dbus := some ⟨(true, none), (true, none), some "revocation performed"⟩,
    Oauth2 := some ⟨"", []⟩,
    Timeout := 0, ReadAllowed := false, WriteAllowed := false }

/-- C4 counterexample: in the both-configured state local mode is not
active (Mode is noauth), yet Deauthorize returns the D-Bus backend
revocation result rather than the claimed no-op nil. -/
theorem deauthorize_not_noop_outside_local_mode :
    bothBackendsKeeper.Mode ≠ AuthMode.polkit ∧
    bothBackendsKeeper.Deauthorize ≠ none := by
  constructor <;> decide

/-- C4 amended: Deauthorize is a no-op returning no error exactly when the
Dbus backend reference is nil, which covers remote mode and the
disabled-with-neither-backend state; whenever the Dbus reference is
non-nil, including the invalid both-configured state that resolves to
disabled mode, it delegates to the D-Bus backend revocation. -/
theorem deauthorize_guarded_by_dbus_reference (a : AuthKeeper) :
    (a.Dbus = none → a.Deauthorize = none) ∧
    (∀ d, a.Dbus = some d → a.Deauthorize = d.deauthorizeResult) ∧
    (a.Mode = AuthMode.oauth2 → a.Deauthorize = none) ∧
    (a.Mode = AuthMode.noauth → a.Oauth2 = none → a.Deauthorize = none) := by
  refine ⟨?_, ?_, ?_, ?_⟩
  · intro h
    simp [AuthKeeper.Deauthorize, h]
  · intro d h
    simp [AuthKeeper.Deauthorize, h]
  · intro h
    cases hd : a.Dbus with
    | none => simp [AuthKeeper.Deauthorize, hd]
    | some d =>
      exfalso
      cases ho : a.Oauth2 <;> simp [AuthKeeper.Mode, hd, ho] at h
  · intro hm ho
    cases hd : a.Dbus with
    | none => simp [AuthKeeper.Deauthorize, hd]
    | some d =>
      exfalso
      simp [AuthKeeper.Mode, hd, ho] at hm

/-- C4 amended witness: concrete evaluations via the theorem: the
both-configured keeper delegates to its D-Bus backend, and an
oauth2-mode keeper deauthorizes as a no-op. -/
theorem deauthorize_guarded_by_dbus_reference_witness :
    bothBackendsKeeper.Deauthorize = some "revocation performed" ∧
    (AuthKeeper.mk none (some ⟨"", []⟩) 0 false false).Deauthorize = none := by
  constructor
  · exact (deauthorize_guarded_by_dbus_reference bothBackendsKeeper).2.1
      ⟨(true, none), (true, none), some "revocation performed"⟩ rfl
  · exact (deauthorize_guarded_by_dbus_reference
      (AuthKeeper.mk none (some ⟨"", []⟩) 0 false false)).2.2.1 (by decide)

/-- C5: when VerifyJWT succeeds on a Valid token whose expiration extracts
to some epoch and whose scope claim is the string s, the space split of s
is stored as the verifier scope set and returned to the caller together
with the expiration. -/
theorem verify_success_stores_and_returns_split (a : Oauth2Auth) (e : Int)
    (s : String) :
    a.VerifyJWT (ParseResult.ok true ⟨ExpClaim.ok e, some s⟩) =
      ({ a with scopes := stringsSplitSpace s },
       VerifyResult.ok ⟨stringsSplitSpace s, e⟩) := rfl

/-- C6: VerifyJWT is configured with the fixed audience literal
systemd-mcp-server and RS256 as the only valid method; whenever the token
string fails to parse, the audience claim differs from that literal, the
algorithm is not RS256, or the signing key cannot be resolved, it returns
the wrapped invalid-token error and no token info. -/
theorem verify_rejects_bad_parse_audience_alg_key (a : Oauth2Auth)
    (tok : JwtToken)
    (h : tok.parses = false ∨ tok.audience ≠ "systemd-mcp-server" ∨
         tok.alg ≠ "RS256" ∨ tok.keyResolvable = false) :
    (a.VerifyJWTWith tok).2 = VerifyResult.error VerifyError.invalidTokenParse ∧
    Audience = "systemd-mcp-server" := by
  refine ⟨?_, rfl⟩
  have hparse : parseWithClaims tok Audience ["RS256"] = ParseResult.err := by
    unfold parseWithClaims
    split_ifs with h1 h2 h3 h4 h5
    any_goals rfl
    exfalso
    rcases h with h | h | h | h
    · exact h1 h
    · exact h2 (by simpa [Audience] using h)
    · exact h (by simpa using h3)
    · exact h4 h
  have hrw : a.VerifyJWTWith tok =
      a.VerifyJWT (parseWithClaims tok Audience ["RS256"]) := rfl
  rw [hrw, hparse]
  rfl

/-- C6 witness: a token with a valid signature but audience other-service
is rejected with the invalid-token error, via the theorem. -/
theorem verify_rejects_bad_parse_audience_alg_key_witness :
    ((Oauth2Auth.mk "" []).VerifyJWTWith
      ⟨true, "other-service", "RS256", true, true,
        ⟨ExpClaim.ok 0, some "mcp:read"⟩⟩).2 =
      VerifyResult.error VerifyError.invalidTokenParse := by
  exact (verify_rejects_bad_parse_audience_alg_key (Oauth2Auth.mk "" [])
    ⟨true, "other-service", "RS256", true, true,
      ⟨ExpClaim.ok 0, some "mcp:read"⟩⟩
    (Or.inr (Or.inl (by decide)))).1

/-- C7: GetJwksURI fetches the well-known openid-configuration path under
the issuer; a non-200 response yields an error whose message reports the
response status string; a 200 response with a malformed body yields an
error; and a 200 response with well-formed JSON yields the jwks_uri field
with no error. -/
theorem get_jwks_uri_cases (issuer : String)
    (world : String → Option HttpResponse) (resp : HttpResponse)
    (h : world (issuer ++ "/.well-known/openid-configuration") = some resp) :
    (resp.statusCode ≠ 200 →
      GetJwksURI issuer world =
        JwksResult.error ("failed to get openid-configuration: " ++ resp.status)) ∧
    (resp.statusCode = 200 → resp.body = JsonBody.malformed →
      GetJwksURI issuer world = JwksResult.error "json decode error") ∧
    (∀ u, resp.statusCode = 200 → resp.body = JsonBody.openidConfig u →
      GetJwksURI issuer world = JwksResult.ok u) := by
  refine ⟨?_, ?_, ?_⟩
  · intro hs
    simp [GetJwksURI, h, hs]
  · intro hs hb
    simp [GetJwksURI, h, hs, hb]
  · intro u hs hb
    simp [GetJwksURI, h, hs, hb]

/-- C7 witness: a 404 at the well-known path yields the error naming
404 Not Found, and a 200 with well-formed JSON yields the jwks_uri, via
the theorem at concrete worlds. -/
theorem get_jwks_uri_cases_witness :
    GetJwksURI "http://idp"
      (fun _ => some ⟨404, "404 Not Found", JsonBody.malformed⟩) =
      JwksResult.error "failed to get openid-configuration: 404 Not Found" ∧
    GetJwksURI "http://idp"
      (fun _ => some ⟨200, "200 OK", JsonBody.openidConfig "https://example.com/jwks"⟩) =
      JwksResult.ok "https://example.com/jwks" := by
  constructor
  · exact (get_jwks_uri_cases "http://idp"
      (fun _ => some ⟨404, "404 Not Found", JsonBody.malformed⟩)
      ⟨404, "404 Not Found", JsonBody.malformed⟩ rfl).1 (by decide)
  · exact (get_jwks_uri_cases "http://idp"
      (fun _ => some ⟨200, "200 OK", JsonBody.openidConfig "https://example.com/jwks"⟩)
      ⟨200, "200 OK", JsonBody.openidConfig "https://example.com/jwks"⟩ rfl).2.2
      "https://example.com/jwks" rfl rfl

/-- C8: systemdScopes returns the two-element list holding the read scope
literal twice; the write scope literal is absent from it even though it
appears in ScopesSupported. -/
theorem systemd_scopes_duplicated_read :
    systemdScopes = ["mcp:read", "mcp:read"] ∧
    systemdScopes.count "mcp:read" = 2 ∧
    "mcp:write" ∉ systemdScopes ∧
    "mcp:write" ∈ ScopesSupported ∧
    "mcp:read" ∈ ScopesSupported := by
  refine ⟨rfl, ?_, ?_, ?_, ?_⟩ <;> decide

/-- C9: a ChangeUnitState request whose action is outside the fixed action
set is rejected with the unsupported-action error and invokes no
service-manager primitive, for every unit name. -/
theorem change_unit_state_rejects_unknown_action (name action : String)
    (h : action ∉ supportedActions) :
    ChangeUnitState name action =
      ([], some (ChangeError.unsupportedAction action)) := by
  simp only [supportedActions, List.mem_cons, List.not_mem_nil, or_false,
    not_or] at h
  obtain ⟨h1, h2, h3, h4, h5, h6, h7⟩ := h
  simp [ChangeUnitState, h1, h2, h3, h4, h5, h6, h7]

/-- C9 witness: the action dance on unit test.service is outside the fixed
set and is rejected with no backend call, via the theorem. -/
theorem change_unit_state_rejects_unknown_action_witness :
    "dance" ∉ supportedActions ∧
    ChangeUnitState "test.service" "dance" =
      ([], some (ChangeError.unsupportedAction "dance")) :=
  ⟨by decide, change_unit_state_rejects_unknown_action "test.service" "dance"
    (by decide)⟩

/-- C10: a VerifyJWT failure on the parse-error path or on the
scope-claim type-assertion path leaves the stored scope set unchanged;
only the parsed-but-not-Valid path clears it. Consequently, after a
failed parse, IsReadAuthorized can still succeed on the scopes of a
previously verified token. -/
theorem failed_verification_keeps_stale_scopes (a : Oauth2Auth)
    (claims : MapClaims) :
    (a.VerifyJWT ParseResult.err).1.scopes = a.scopes ∧
    (claims.scope = none →
      (a.VerifyJWT (ParseResult.ok true claims)).1.scopes = a.scopes) ∧
    (a.VerifyJWT (ParseResult.ok false claims)).1.scopes = [] ∧
    ("mcp:read" ∈ a.scopes →
      (a.VerifyJWT ParseResult.err).1.IsReadAuthorized = (true, none)) := by
  refine ⟨rfl, ?_, rfl, ?_⟩
  · intro hs
    cases he : claims.getExpirationTime <;>
      simp [Oauth2Auth.VerifyJWT, he, hs]
  · intro hmem
    simp [Oauth2Auth.VerifyJWT, Oauth2Auth.IsReadAuthorized, hmem]

/-- C10 witness: a verifier holding mcp:read from a previous verification
still authorizes read after a parse failure, and the type-assertion
failure keeps the scopes, via the theorem at concrete inputs. -/
theorem failed_verification_keeps_stale_scopes_witness :
    ((Oauth2Auth.mk "" ["mcp:read"]).VerifyJWT
      (ParseResult.ok true ⟨ExpClaim.ok 0, none⟩)).1.scopes = ["mcp:read"] ∧
    ((Oauth2Auth.mk "" ["mcp:read"]).VerifyJWT
      ParseResult.err).1.IsReadAuthorized = (true, none) := by
  constructor
  · exact (failed_verification_keeps_stale_scopes (Oauth2Auth.mk "" ["mcp:read"])
      ⟨ExpClaim.ok 0, none⟩).2.1 rfl
  · exact (failed_verification_keeps_stale_scopes (Oauth2Auth.mk "" ["mcp:read"])
      ⟨ExpClaim.ok 0, none⟩).2.2.2 (by decide)

end SystemdMcp
